import Mathlib

/-!
Shallow embedding of the HIT137 assignment-3 Tkinter AI application:
the decorators (run_in_thread, catch_errors, require_token), the task
adapters, the remote inference HTTP client, the local pipeline client
and the application token handling, together with theorems settling
the specification claims about them.

Python functions become Lean functions; the module-level globals of the
local client become explicit state passing; fallible code returns
Except; machine-level concerns (tensors, PIL decoding) are abstracted
as opaque-free record constructors carrying their inputs.
-/

namespace HIT137

/-! ## Label/score values and the two image-classification variants -/

/-- Whitespace as Python str.strip sees it (ASCII range). -/
def isPyWhitespace (c : Char) : Bool :=
  c == ' ' || c == '\t' || c == '\n' || c == '\r' || c == '\x0b' || c == '\x0c'

/-- Python str.strip: drop leading and trailing whitespace.  Defined on
the character list so that it reduces computationally. -/
def pyStrip (s : String) : String :=
  String.mk (((s.data.dropWhile isPyWhitespace).reverse.dropWhile isPyWhitespace).reverse)

/-- Python str.startswith, defined on the character lists so that it
reduces computationally. -/
def pyStartsWith (s pre : String) : Bool :=
  s.data.take pre.data.length == pre.data

/-- A label/score pair as produced by image classification.  The score
is kept in thousandths of probability: the remote rendering prints the
float score with exactly three decimal places, so thousandths render
exactly. -/
structure LabelScore where
  label : String
  score : Nat
  deriving DecidableEq

/-- Shape of a Python value returned by a client call: either a string
or a list of label/score records.  Used to compare the two client
variants. -/
inductive PyVal where
  | str : String → PyVal
  | list : List LabelScore → PyVal
  deriving DecidableEq

/-- Pad a number below 1000 to three digits. -/
def pad3 (k : Nat) : String :=
  if k < 10 then "00" ++ toString k
  else if k < 100 then "0" ++ toString k
  else toString k

/-- Render a score held in thousandths with three decimal places, the
way the format specifier of the remote rendering prints the score. -/
def fmt3 (n : Nat) : String :=
  toString (n / 1000) ++ "." ++ pad3 (n % 1000)

/-- Insert into a list sorted by descending score, keeping the inserted
element after earlier elements of equal score when used through foldr,
which models the stability of the Python sort. -/
def insertDesc (x : LabelScore) : List LabelScore → List LabelScore
  | [] => [x]
  | y :: ys => if y.score ≤ x.score then x :: y :: ys else y :: insertDesc x ys

/-- Stable sort by descending score, modelling sorted with a score key
and reverse order as used by the remote image_classification. -/
def sortScoreDesc (l : List LabelScore) : List LabelScore :=
  l.foldr insertDesc []

/-- The string built by the remote image_classification from the JSON
list: the five highest-scoring predictions, one line each. -/
def renderTopPredictions (out : List LabelScore) : String :=
  "Top predictions:\n" ++
    String.intercalate "\n"
      (((sortScoreDesc out).take 5).map
        (fun x => "- " ++ x.label ++ " (" ++ fmt3 x.score ++ ")"))

/-- Result value of the remote image_classification on a parsed JSON
list: always a single rendered string.  A non-empty list is rendered as
the top predictions; an empty list falls through to its JSON dump. -/
def remote_image_classification (out : List LabelScore) : PyVal :=
  PyVal.str (if out.isEmpty then "[]" else renderTopPredictions out)

/-- Result value of the local image_classification, modelled at the
level of the label/score list it computes: the top-k records are
returned as a Python list of dicts, not rendered to a string. -/
def local_image_classification_result (topk : List LabelScore) : PyVal :=
  PyVal.list topk

/-! ## Remote client: request construction -/

/-- An HTTP request as issued by the remote client. -/
structure HTTPRequest where
  method : String
  url : String
  headers : List (String × String)
  deriving DecidableEq

/-- Base URL of the inference endpoint; each request appends the model
id after it. -/
def inferenceBase : String := "https://api-inference.huggingface.co/models/"

/-- URL addressed by a request for a given model id. -/
def modelUrl (model_id : String) : String := inferenceBase ++ model_id

/-- Headers for JSON requests: a content type plus an Authorization
bearer header exactly when the stored token is non-empty. -/
def json_headers (token : String) : List (String × String) :=
  [("Content-Type", "application/json")] ++
    (if token = "" then [] else [("Authorization", "Bearer " ++ token)])

/-- Headers for binary requests: only the Authorization bearer header,
and only when the stored token is non-empty. -/
def bin_headers (token : String) : List (String × String) :=
  if token = "" then [] else [("Authorization", "Bearer " ++ token)]

/-- The request issued by the remote text_generation. -/
def text_generation_request (token model_id : String) : HTTPRequest :=
  { method := "POST", url := modelUrl model_id, headers := json_headers token }

/-- The request issued by the remote text_to_image. -/
def text_to_image_request (token model_id : String) : HTTPRequest :=
  { method := "POST", url := modelUrl model_id, headers := json_headers token }

/-- The request issued by the remote image_classification. -/
def image_classification_request (token model_id : String) : HTTPRequest :=
  { method := "POST", url := modelUrl model_id, headers := bin_headers token }

/-- The values of all Authorization headers carried by a request. -/
def authValues (r : HTTPRequest) : List String :=
  r.headers.filterMap (fun kv => if kv.1 = "Authorization" then some kv.2 else none)

/-! ## Remote client: text_to_image response processing -/

/-- A JSON error payload as the response-processing code sees it after
a successful parse: the optional error field and the Python string
rendering of the whole payload. -/
structure ErrPayload where
  errorField : Option String
  rendering : String
  deriving DecidableEq

/-- An HTTP response from the inference endpoint.  jsonBody is none
when the body cannot be parsed as JSON. -/
structure HTTPResponse where
  status : Nat
  contentType : String
  content : List Nat
  jsonBody : Option ErrPayload
  deriving DecidableEq

/-- A decoded RGB image, abstracted as the bytes it was decoded from;
PIL decoding and RGB conversion are treated as total. -/
structure RGBImage where
  source : List Nat
  deriving DecidableEq

/-- The fixed message raised on a 403 status. -/
def fixed403Message : String :=
  "403 Forbidden: model is gated or not available to your account/tier."

/-- The fixed message raised when the error body cannot be parsed as
JSON. -/
def unknownErrorMessage : String := "Unknown error from the Inference API."

/-- Message of the raise_for_status error for a status of 400 or
above. -/
def raiseForStatusMessage (status : Nat) (url : String) : String :=
  toString status ++ " Error for url: " ++ url

/-- Message raised from a parsed JSON error payload: the error field
when present and truthy, the string rendering of the payload
otherwise. -/
def payloadMessage (err : ErrPayload) : String :=
  match err.errorField with
  | some s => if s = "" then err.rendering else s
  | none => err.rendering

/-- Message raised from the error body: drawn from the JSON payload
when it parses, the fixed unknown-error message when it does not. -/
def jsonErrorMessage (jb : Option ErrPayload) : String :=
  match jb with
  | some err => payloadMessage err
  | none => unknownErrorMessage

/-- Remote text_to_image response processing: a 403 status raises the
fixed forbidden message first; any other status of 400 or above raises
through raise_for_status; then an image content type yields the decoded
image; otherwise the error message is drawn from the JSON payload when
one parses and is the fixed unknown-error message when it does not. -/
def text_to_image (url : String) (r : HTTPResponse) : Except String RGBImage :=
  if r.status = 403 then Except.error fixed403Message
  else if 400 ≤ r.status then Except.error (raiseForStatusMessage r.status url)
  else if pyStartsWith r.contentType "image/" then Except.ok ⟨r.content⟩
  else Except.error (jsonErrorMessage r.jsonBody)

/-! ## Local client: module-level handle cache -/

/-- A loaded pipeline, processor or model handle, identified by the
model id it was loaded from. -/
structure Handle where
  loadedFrom : String
  deriving DecidableEq

/-- The module-level globals of the local client, passed explicitly. -/
structure LocalGlobals where
  t2iPipe : Option Handle
  clsProc : Option Handle
  clsModel : Option Handle
  deriving DecidableEq

/-- Globals at import time: nothing loaded yet. -/
def initGlobals : LocalGlobals := { t2iPipe := none, clsProc := none, clsModel := none }

/-- The pipeline getter of the local client: loads the pipeline from
the given model id only when the global is still unset, and returns the
cached handle untouched on every later call. -/
def get_t2i_pipe (g : LocalGlobals) (model_id : String) : Handle × LocalGlobals :=
  match g.t2iPipe with
  | some p => (p, g)
  | none => (⟨model_id⟩, { g with t2iPipe := some ⟨model_id⟩ })

/-- Output of a local text_to_image run: the handle that produced the
image and the prompt it was given. -/
structure T2IOutput where
  usedHandle : Handle
  prompt : String
  deriving DecidableEq

/-- The local text_to_image: obtains the (possibly cached) pipeline and
runs it on the prompt. -/
def local_text_to_image (g : LocalGlobals) (model_id prompt : String) :
    T2IOutput × LocalGlobals :=
  let pg := get_t2i_pipe g model_id
  ({ usedHandle := pg.1, prompt := prompt }, pg.2)

/-- Output of a local image_classification run: the processor and model
handles that computed it and the image bytes they were applied to. -/
structure ClsOutput where
  usedProc : Handle
  usedModel : Handle
  image : List Nat
  deriving DecidableEq

/-- The local image_classification: when either the processor or the
model global is unset, both are loaded from the given model id;
otherwise the cached handles are used and the model id argument is
ignored. -/
def local_image_classification (g : LocalGlobals) (model_id : String)
    (image_bytes : List Nat) : ClsOutput × LocalGlobals :=
  match g.clsProc, g.clsModel with
  | some p, some m => ({ usedProc := p, usedModel := m, image := image_bytes }, g)
  | _, _ =>
      ({ usedProc := ⟨model_id⟩, usedModel := ⟨model_id⟩, image := image_bytes },
       { g with clsProc := some ⟨model_id⟩, clsModel := some ⟨model_id⟩ })

/-! ## Adapters -/

/-- A model descriptor: id, task name and description. -/
structure ModelInfo where
  model_id : String
  task : String
  description : String
  deriving DecidableEq

/-- The info_text rendering of a descriptor; it only reads fields. -/
def info_text (info : ModelInfo) : String :=
  "Model: " ++ info.model_id ++ "\nCategory: " ++ info.task ++ "\n\n" ++ info.description

/-- The model table of the application, keyed by the combo-box label. -/
def MODELS : List (String × ModelInfo) :=
  [("Text-to-Image",
    { model_id := "stabilityai/sdxl-turbo"
    , task := "Vision (Text-to-Image)"
    , description := "SDXL-Turbo: fast text-to-image. Input: prompt → Output: image." }),
   ("Image Classification",
    { model_id := "google/vit-base-patch16-224"
    , task := "Vision (Image Classification)"
    , description := "ViT Base (16×224) image classifier. Input: image → Output: top labels." })]

/-- The data-model invariant on one descriptor: every field is a
non-empty string. -/
def modelInfoValid (info : ModelInfo) : Bool :=
  !info.model_id.isEmpty && !info.task.isEmpty && !info.description.isEmpty

/-- A call an adapter makes on its client.  The call description is the
same whichever client variant is active. -/
inductive ClientCall where
  | textToImage (model_id prompt : String)
  | imageClassification (model_id : String) (image_bytes : List Nat)
  deriving DecidableEq

/-- The validation message of the text-to-image adapter. -/
def promptError : String := "Please type a prompt in the input box."

/-- The validation message of the image-classification adapter. -/
def imageError : String := "Please choose an image (Browse) first."

/-- The run method of TextToImageAdapter: an empty prompt after
stripping raises before any client call; otherwise the single delegated
client call is issued.  The require_token wrapper around it is the
identity on adapter receivers (proved below) and is elided here. -/
def TextToImageAdapter.run (info : ModelInfo) (prompt? : Option String) :
    List ClientCall × Except String Unit :=
  let prompt := pyStrip (prompt?.getD "")
  if prompt = "" then ([], Except.error promptError)
  else ([ClientCall.textToImage info.model_id prompt], Except.ok ())

/-- The run method of ImageClassificationAdapter: missing or empty
image bytes raise before any client call; otherwise the single
delegated client call is issued.  The require_token wrapper around it
is the identity on adapter receivers (proved below) and is elided
here. -/
def ImageClassificationAdapter.run (info : ModelInfo) (image_bytes? : Option (List Nat)) :
    List ClientCall × Except String Unit :=
  match image_bytes? with
  | none => ([], Except.error imageError)
  | some bs =>
      if bs = [] then ([], Except.error imageError)
      else ([ClientCall.imageClassification info.model_id bs], Except.ok ())

/-! ## Decorators -/

/-- A spawned thread: target function, argument and daemon flag. -/
structure Thread (α β : Type) where
  target : α → β
  arg : α
  daemon : Bool

/-- The run_in_thread wrapper: spawns one daemon thread that will run
the wrapped function on the arguments, and returns None at once without
waiting for or keeping the return value of the wrapped function.  The
wrapper consults no shared state, so nothing coordinates or prevents a
second invocation while an earlier thread is still running. -/
def run_in_thread {α β : Type} (fn : α → β) (a : α) : Option β × List (Thread α β) :=
  (none, [{ target := fn, arg := a, daemon := true }])

/-- Effects of the catch_errors wrapper around a synchronous
computation: the value returned to the caller, the error dialogs shown,
and the status-line writes the wrapper itself makes. -/
structure CaughtOutcome (γ : Type) where
  returned : Option γ
  dialogs : List String
  statusWrites : List String
  deriving DecidableEq

/-- The catch_errors wrapper: the wrapped synchronous computation runs
inside the try block; an exception becomes a status write (when the
receiver has _set_status) plus one error dialog, and the wrapper then
returns None. -/
def catch_errors {γ : Type} [DecidableEq γ] (hasSetStatus : Bool)
    (body : Except String γ) : CaughtOutcome γ :=
  match body with
  | Except.ok v => { returned := some v, dialogs := [], statusWrites := [] }
  | Except.error e =>
      { returned := none
      , dialogs := [e]
      , statusWrites := if hasSetStatus then ["Error: " ++ e] else [] }

/-- One invocation of a handler decorated with catch_errors outside
run_in_thread, as on on_run_model1 and on_run_model2: the try block of
catch_errors wraps only the thread spawn, which returns at once without
raising, while the handler body runs on the spawned daemon thread.  The
record keeps what the UI thread sees and the outcome of each spawned
thread. -/
structure DecoratedHandlerRun where
  uiOutcome : CaughtOutcome (Option Unit)
  threadOutcomes : List (Except String Unit)

/-- Execute a decorated handler whose body (run on the worker thread)
produces the given outcome.  The application receiver has _set_status,
so catch_errors would write the status line if its try block saw an
exception. -/
def decorated_handler (body : Except String Unit) : DecoratedHandlerRun :=
  let spawn := run_in_thread (fun _ : Unit => body) ()
  { uiOutcome := catch_errors true (Except.ok (spawn.1.map (fun _ => ())))
  , threadOutcomes := spawn.2.map (fun t => t.target t.arg) }

/-- Exceptions escaping uncaught on the spawned worker threads. -/
def uncaughtThreadErrors (r : DecoratedHandlerRun) : List String :=
  r.threadOutcomes.filterMap
    (fun o => match o with | Except.error e => some e | Except.ok _ => none)

/-- The message raised by on_run_model2 when no image is loaded. -/
def noImageMessage : String := "Please select/load an image (Browse)."

/-- Body of on_run_model2 as it runs on the worker thread: raises when
no image has been loaded, and otherwise feeds the PNG bytes of the
loaded image to the image-classification adapter. -/
def on_run_model2_body (lastImagePng : Option (List Nat)) (info : ModelInfo) :
    Except String Unit :=
  match lastImagePng with
  | none => Except.error noImageMessage
  | some png => (ImageClassificationAdapter.run info (some png)).2

/-- A receiver object as require_token sees it through getattr and
hasattr: the token attribute when one exists, and whether a _set_status
method exists.  Adapter receivers have neither. -/
structure Receiver where
  token : Option String
  hasSetStatus : Bool
  deriving DecidableEq

/-- The warning require_token can write to the status line. -/
def noTokenWarning : String :=
  "Warning: no HF token set; request may be rate-limited or fail."

/-- The require_token wrapper: when the receiver's token attribute is
missing or falsy and the receiver has _set_status, a warning is written
to the status line; in every case the wrapped function is then called
with the original receiver and arguments and its value returned. -/
def require_token {α β : Type} (fn : Receiver → α → β) (self : Receiver) (a : α) :
    List String × β :=
  (if (self.token.getD "") = "" ∧ self.hasSetStatus then [noTokenWarning] else [],
   fn self a)

/-! ## Application token state -/

/-- The remote client object as constructed by the client initializer:
an allocation identity plus the stored token, which falls back to the
stripped environment token when the given token is empty or absent. -/
structure Client where
  id : Nat
  storedToken : String
  deriving DecidableEq

/-- The client initializer. -/
def HFClient_init (allocId : Nat) (token : Option String) (envToken : String) : Client :=
  { id := allocId
  , storedToken :=
      match token with
      | some t => if t = "" then pyStrip envToken else t
      | none => pyStrip envToken }

/-- The application state touched by the token setter: the stored
token, the current client, each adapter keyed by task label with its
client attribute, and the allocation counter for client identities. -/
structure AppTokenState where
  appToken : String
  appClient : Client
  adapters : List (String × Client)
  nextId : Nat
  deriving DecidableEq

/-- The token setter of the application: strips the value (treating
None as the empty string), constructs exactly one new client from the
stripped token, and points every adapter's client attribute at that
client.  Returns the new state and the number of clients
constructed. -/
def token_setter (s : AppTokenState) (value : Option String) (envToken : String) :
    AppTokenState × Nat :=
  let t := pyStrip (value.getD "")
  let c := HFClient_init s.nextId (some t) envToken
  ({ appToken := t
   , appClient := c
   , adapters := s.adapters.map (fun kv => (kv.1, c))
   , nextId := s.nextId + 1 }, 1)

/-! ## Remaining helper definitions for the theorems -/

/-- Shape discriminator on client results: true on strings, false on
label/score lists. -/
def isStrVal : PyVal → Bool
  | PyVal.str _ => true
  | PyVal.list _ => false

/-- The descriptor of the image-classification model in the table. -/
def classificationInfo : ModelInfo :=
  { model_id := "google/vit-base-patch16-224"
  , task := "Vision (Image Classification)"
  , description := "ViT Base (16×224) image classifier. Input: image → Output: top labels." }

/-- A 403 response that nevertheless carries a parseable JSON error
payload. -/
def gatedResponse : HTTPResponse :=
  { status := 403, contentType := "application/json", content := []
  , jsonBody := some { errorField := some "quota exceeded", rendering := "payload-rendering" } }

/-- What the claims require of one remote request: a POST to the
inference URL with the model id as final path segment, whose
Authorization values are exactly one bearer token when the stored token
is non-empty and absent when it is empty. -/
def requestOk (token model_id : String) (r : HTTPRequest) : Prop :=
  r.method = "POST" ∧ r.url = inferenceBase ++ model_id ∧
    authValues r = (if token = "" then [] else ["Bearer " ++ token])

/-! ## Claim theorems -/

/-- C1: the claim fails on the code and the failure contradicts the
documented purpose of catch_errors.  Evaluated at the failing input —
Run Model 2 clicked with no image loaded — the decorated handler shows
no error dialog and writes no error status, while the raised message
escapes uncaught on the spawned daemon thread: catch_errors is applied
outside run_in_thread, so its try block wraps only the thread spawn and
never the handler body. -/
theorem C1_handler_exception_escapes :
    (decorated_handler (on_run_model2_body none classificationInfo)).uiOutcome.dialogs = [] ∧
    (decorated_handler (on_run_model2_body none classificationInfo)).uiOutcome.statusWrites = [] ∧
    uncaughtThreadErrors (decorated_handler (on_run_model2_body none classificationInfo)) =
      [noImageMessage] :=
  ⟨rfl, rfl, rfl⟩

/-- C2 counterexample: on the same label/score list the remote variant
returns a rendered string while the local variant returns the list of
records, so the two variants do not produce results of the same
shape. -/
theorem C2_counterexample :
    remote_image_classification [⟨"cat", 900⟩] ≠
      local_image_classification_result [⟨"cat", 900⟩] ∧
    remote_image_classification [⟨"cat", 900⟩] =
      PyVal.str "Top predictions:\n- cat (0.900)" ∧
    local_image_classification_result [⟨"cat", 900⟩] = PyVal.list [⟨"cat", 900⟩] :=
  ⟨by decide, by decide, rfl⟩

/-- C2 amended: the adapter issues the identical single client call
whichever variant is active, but the variants differ in result shape —
the remote image_classification always yields a string value and the
local variant always yields a list value. -/
theorem C2_amended_variant_shapes (info : ModelInfo) (out : List LabelScore)
    (b : Nat) (bs : List Nat) :
    isStrVal (remote_image_classification out) = true ∧
    isStrVal (local_image_classification_result out) = false ∧
    (ImageClassificationAdapter.run info (some (b :: bs))).1 =
      [ClientCall.imageClassification info.model_id (b :: bs)] := by
  refine ⟨rfl, rfl, ?_⟩
  simp [ImageClassificationAdapter.run]

/-- C3 counterexample: a 403 response carrying a parseable JSON error
payload raises the fixed forbidden message, not the payload message the
claim prescribes. -/
theorem C3_counterexample :
    text_to_image (modelUrl "stabilityai/sdxl-turbo") gatedResponse =
      Except.error fixed403Message ∧
    gatedResponse.jsonBody =
      some { errorField := some "quota exceeded", rendering := "payload-rendering" } ∧
    fixed403Message ≠ "quota exceeded" :=
  ⟨rfl, rfl, by decide⟩

/-- C3 amended: text_to_image returns a decoded image exactly when the
status is below 400 and the content type starts with image/; a 403
status raises the fixed forbidden message regardless of the payload;
any other status of 400 or above raises the raise_for_status error; a
sub-400 non-image response raises the message drawn from the JSON error
payload when one parses and the fixed unknown-error message
otherwise. -/
theorem C3_text_to_image_cases (url : String) (r : HTTPResponse) :
    (r.status = 403 → text_to_image url r = Except.error fixed403Message) ∧
    (r.status ≠ 403 → 400 ≤ r.status →
      text_to_image url r = Except.error (raiseForStatusMessage r.status url)) ∧
    (r.status < 400 → pyStartsWith r.contentType "image/" = true →
      text_to_image url r = Except.ok ⟨r.content⟩) ∧
    (r.status < 400 → pyStartsWith r.contentType "image/" = false →
      text_to_image url r = Except.error (jsonErrorMessage r.jsonBody)) := by
  refine ⟨?_, ?_, ?_, ?_⟩
  · intro h; simp [text_to_image, h]
  · intro h1 h2; simp [text_to_image, h1, h2]
  · intro h1 h2
    have n1 : ¬ r.status = 403 := by omega
    have n2 : ¬ 400 ≤ r.status := by omega
    simp [text_to_image, n1, n2, h2]
  · intro h1 h2
    have n1 : ¬ r.status = 403 := by omega
    have n2 : ¬ 400 ≤ r.status := by omega
    simp [text_to_image, n1, n2, h2]

/-- Witness for C3: the four cases of the amended theorem at concrete
responses. -/
theorem C3_cases_witness :
    text_to_image "u" { status := 403, contentType := "", content := [], jsonBody := none } =
      Except.error fixed403Message ∧
    text_to_image "u" { status := 500, contentType := "", content := [], jsonBody := none } =
      Except.error (raiseForStatusMessage 500 "u") ∧
    text_to_image "u" { status := 200, contentType := "image/png", content := [7], jsonBody := none } =
      Except.ok ⟨[7]⟩ ∧
    text_to_image "u" { status := 200, contentType := "application/json", content := []
                      , jsonBody := some { errorField := some "boom", rendering := "rend" } } =
      Except.error (jsonErrorMessage (some { errorField := some "boom", rendering := "rend" })) :=
  ⟨(C3_text_to_image_cases "u" _).1 rfl,
   (C3_text_to_image_cases "u" _).2.1 (by decide) (by decide),
   (C3_text_to_image_cases "u" _).2.2.1 (by decide) (by decide),
   (C3_text_to_image_cases "u" _).2.2.2 (by decide) (by decide)⟩

/-- C4: the local client's handles are bare module-level globals loaded
exactly once — the first text_to_image call loads the pipeline for the
model id it was given, the first image_classification call loads the
processor and model for its model id, and a second call with any other
model id reuses the cached handles and leaves the globals unchanged. -/
theorem C4_local_cache_loaded_once (m1 m2 p1 p2 : String) (bs1 bs2 : List Nat) :
    ((local_text_to_image initGlobals m1 p1).1.usedHandle = ⟨m1⟩ ∧
     (local_text_to_image initGlobals m1 p1).2.t2iPipe = some ⟨m1⟩ ∧
     (local_text_to_image (local_text_to_image initGlobals m1 p1).2 m2 p2).1.usedHandle = ⟨m1⟩ ∧
     (local_text_to_image (local_text_to_image initGlobals m1 p1).2 m2 p2).2 =
       (local_text_to_image initGlobals m1 p1).2) ∧
    ((local_image_classification initGlobals m1 bs1).1.usedProc = ⟨m1⟩ ∧
     (local_image_classification initGlobals m1 bs1).1.usedModel = ⟨m1⟩ ∧
     (local_image_classification (local_image_classification initGlobals m1 bs1).2 m2 bs2).1.usedProc = ⟨m1⟩ ∧
     (local_image_classification (local_image_classification initGlobals m1 bs1).2 m2 bs2).1.usedModel = ⟨m1⟩ ∧
     (local_image_classification (local_image_classification initGlobals m1 bs1).2 m2 bs2).2 =
       (local_image_classification initGlobals m1 bs1).2) :=
  ⟨⟨rfl, rfl, rfl, rfl⟩, ⟨rfl, rfl, rfl, rfl, rfl⟩⟩

/-- C5: every remote client request is a POST to the inference URL with
the model id as final path segment, carrying a bearer Authorization
header exactly when the stored token is non-empty and no Authorization
header at all when it is empty. -/
theorem C5_remote_requests (token model_id : String) :
    requestOk token model_id (text_generation_request token model_id) ∧
    requestOk token model_id (text_to_image_request token model_id) ∧
    requestOk token model_id (image_classification_request token model_id) := by
  by_cases h : token = "" <;>
    simp [requestOk, text_generation_request, text_to_image_request,
      image_classification_request, authValues, json_headers, bin_headers,
      modelUrl, h]

/-- C6: validation failures raise before any client call — an empty
stripped prompt makes TextToImageAdapter.run raise with no client call
issued, and missing or empty image bytes make
ImageClassificationAdapter.run raise with no client call issued. -/
theorem C6_validation_precedes_client_calls (info : ModelInfo)
    (prompt? : Option String) (image_bytes? : Option (List Nat)) :
    (pyStrip (prompt?.getD "") = "" →
      TextToImageAdapter.run info prompt? = ([], Except.error promptError)) ∧
    (image_bytes?.getD [] = [] →
      ImageClassificationAdapter.run info image_bytes? = ([], Except.error imageError)) := by
  constructor
  · intro h
    simp [TextToImageAdapter.run, h]
  · intro h
    cases image_bytes? with
    | none => rfl
    | some bs =>
        have hb : bs = [] := h
        subst hb
        rfl

/-- Witness for C6: a whitespace-only prompt and missing image bytes
both raise without a client call. -/
theorem C6_validation_witness :
    TextToImageAdapter.run ⟨"m", "t", "d"⟩ (some "   ") = ([], Except.error promptError) ∧
    ImageClassificationAdapter.run ⟨"m", "t", "d"⟩ none = ([], Except.error imageError) :=
  ⟨(C6_validation_precedes_client_calls ⟨"m", "t", "d"⟩ (some "   ") none).1 (by decide),
   (C6_validation_precedes_client_calls ⟨"m", "t", "d"⟩ (some "   ") none).2 rfl⟩

/-- C7: each invocation of a run_in_thread wrapper spawns exactly one
daemon thread running the wrapped handler on the original arguments and
returns None at once, discarding the handler's value; the wrapper holds
no shared state, so a second invocation while the first is in flight
spawns its own thread unimpeded. -/
theorem C7_run_in_thread_one_daemon_thread {α β : Type} (fn : α → β) (a a2 : α) :
    (run_in_thread fn a).1 = none ∧
    (run_in_thread fn a).2 = [{ target := fn, arg := a, daemon := true }] ∧
    ((run_in_thread fn a).2 ++ (run_in_thread fn a2).2).length = 2 :=
  ⟨rfl, rfl, rfl⟩

/-- C8: every descriptor in the model table has non-empty model id,
task and description fields; the embedding's operations on descriptors
(info_text and the adapter runs) are pure readers, so no operation
produces a mutated descriptor. -/
theorem C8_model_table_invariant :
    MODELS.all (fun kv => modelInfoValid kv.2) = true := by decide

/-- C9: require_token never blocks — the wrapped function is always
invoked with the original receiver and arguments and its value
returned — and on an adapter receiver, which has neither a token
attribute nor _set_status, no warning is ever emitted, making the
wrapper behaviorally the identity. -/
theorem C9_require_token_transparent {α β : Type} (fn : Receiver → α → β)
    (self : Receiver) (a : α) :
    (require_token fn self a).2 = fn self a ∧
    (self.token = none → self.hasSetStatus = false →
      (require_token fn self a).1 = []) := by
  refine ⟨rfl, ?_⟩
  intro _ h2
  simp [require_token, h2]

/-- Witness for C9: on a tokenless receiver without _set_status the
wrapper returns the wrapped function's value and emits no warning. -/
theorem C9_require_token_witness :
    (require_token (fun _ (n : Nat) => n + 1) { token := none, hasSetStatus := false } 5).2 =
      (fun (_ : Receiver) (n : Nat) => n + 1) { token := none, hasSetStatus := false } 5 ∧
    (require_token (fun _ (n : Nat) => n + 1) { token := none, hasSetStatus := false } 5).1 = [] :=
  ⟨(C9_require_token_transparent (fun _ (n : Nat) => n + 1)
      { token := none, hasSetStatus := false } 5).1,
   (C9_require_token_transparent (fun _ (n : Nat) => n + 1)
      { token := none, hasSetStatus := false } 5).2 rfl rfl⟩

/-- C10: the token setter stores the stripped value (None included),
constructs exactly one new client from it, bumps the allocation
counter, points every adapter's client attribute at that same new
client, and keeps the adapter keys unchanged. -/
theorem C10_token_setter_rewires_adapters (s : AppTokenState) (value : Option String)
    (envToken : String) :
    (token_setter s value envToken).1.appToken = pyStrip (value.getD "") ∧
    (token_setter s value envToken).2 = 1 ∧
    (token_setter s value envToken).1.appClient =
      HFClient_init s.nextId (some (pyStrip (value.getD ""))) envToken ∧
    (token_setter s value envToken).1.nextId = s.nextId + 1 ∧
    ((token_setter s value envToken).1.adapters.all
      (fun kv => kv.2 == (token_setter s value envToken).1.appClient)) = true ∧
    (token_setter s value envToken).1.adapters.map Prod.fst = s.adapters.map Prod.fst := by
  refine ⟨rfl, rfl, rfl, rfl, ?_, ?_⟩
  · simp [token_setter, List.all_eq_true]
  · simp [token_setter, List.map_map]

end HIT137
